import Mathlib

/-!
Verification of the two-chip PLONK example circuit (`examples/two-chip.rs`).

The example file defines a circuit computing `d = (a + b) * c` from three
private inputs and exposing `d` as a public input, then checks it with the
mock prover.  The circuit-side code (gate polynomials, chip region closures,
the order of synthesis steps) is embedded below directly from the source.
The library side (the sequential single-chip layouter, the constraint-system
bookkeeping and the mock verification engine) is not part of the repository
sources, so those definitions are modelled from the specification and are
marked as such in their doc comments.
-/

namespace TwoChip

/-- The error type from `halo2::plonk::Error`; the example only ever
produces `SynthesisError` (from the `ok_or(Error::SynthesisError)` calls). -/
inductive Error where
  | SynthesisError
  deriving DecidableEq

/-- Column kinds used by the example: advice (private witness) and
inst (public-input / instance).  Selector fixed columns are modelled as a
separate grid indexed by selector number. -/
inductive ColKind where
  | advice
  | inst
  deriving DecidableEq

/-- A column handle: kind plus index (`Column<Advice>` / `Column<Instance>`). -/
structure Column where
  kind : ColKind
  index : Nat
  deriving DecidableEq

/-- A cell: a column together with an absolute row index. -/
structure Cell where
  col : Column
  row : Nat
  deriving DecidableEq

/-- `struct Number` from the source (lines 18-22): a cell location paired
with its optional field-element value. -/
structure Number (F : Type) where
  cell : Cell
  value : Option F

/-- A selector handle: the index of the selector's fixed column
(allocation order in `configure`: `s_pub = 0`, `s_add = 1`, `s_mul = 2`). -/
abbrev Selector := Nat

/-- Modelled from the spec: gate polynomial expressions (design note §9:
"an expression tree over {column-query, selector-query, constant, add, mul}").
Rotations are the relative row offsets used by the example
(`Rotation::cur() = 0`, `Rotation::next() = 1`). -/
inductive Expr (F : Type) where
  | qadv (col : Nat) (rot : Nat)
  | qinst (col : Nat) (rot : Nat)
  | qsel (s : Nat) (rot : Nat)
  | const (c : F)
  | add (x y : Expr F)
  | mul (x y : Expr F)

/-- Modelled from the spec (§4.5): evaluation of a gate expression at a row,
"resolving column queries via rotation-relative row lookups into the
assignment, and instance queries into the public-input vector"; a query at
rotation `rot` from row `row` reads row `row + rot` of the queried column. -/
def Expr.eval {F : Type} [Field F] (adv sel inst : Nat → Nat → F) (row : Nat) :
    Expr F → F
  | .qadv c r => adv c (row + r)
  | .qinst c r => inst c (row + r)
  | .qsel s r => sel s (row + r)
  | .const c => c
  | .add x y => Expr.eval adv sel inst row x + Expr.eval adv sel inst row y
  | .mul x y => Expr.eval adv sel inst row x * Expr.eval adv sel inst row y

/-- A registered gate: a diagnostic name plus its list of polynomial
expressions (the `vec![...]` returned from `create_gate`). -/
structure Gate (F : Type) where
  name : String
  polys : List (Expr F)

/-- A permutation (copy-constraint group): the participating columns
(`Permutation::new(meta, &advice)` over the two advice columns). -/
structure Permutation where
  columns : List Column
  deriving DecidableEq

/-- `struct AddConfig` (source lines 107-113). -/
structure AddConfig where
  advice : Fin 2 → Nat
  perm : Permutation
  s_add : Selector

/-- `struct MulConfig` (source lines 116-122). -/
structure MulConfig where
  advice : Fin 2 → Nat
  perm : Permutation
  s_mul : Selector

/-- `struct FieldConfig` (source lines 86-103). -/
structure FieldConfig where
  advice : Fin 2 → Nat
  perm : Permutation
  s_pub : Selector
  add_config : AddConfig
  mul_config : MulConfig

/-- The permutation created in `FieldChip::configure` over the two advice
columns (source lines 443-449). -/
def myPerm : Permutation := ⟨[⟨.advice, 0⟩, ⟨.advice, 1⟩]⟩

/-- The two advice columns created in `MyCircuit::configure`
(`[meta.advice_column(), meta.advice_column()]`, indices 0 and 1). -/
def myAdvice : Fin 2 → Nat := fun i => i.val

/-- The config produced by `AddChip::configure` (source lines 170-192):
`s_add` is the second selector allocated (index 1). -/
def myAddConfig : AddConfig := ⟨myAdvice, myPerm, 1⟩

/-- The config produced by `MulChip::configure` (source lines 296-335):
`s_mul` is the third selector allocated (index 2). -/
def myMulConfig : MulConfig := ⟨myAdvice, myPerm, 2⟩

/-- The config produced by `FieldChip::configure` (source lines 438-475):
`s_pub` is the first selector allocated (index 0). -/
def myFieldConfig : FieldConfig := ⟨myAdvice, myPerm, 0, myAddConfig, myMulConfig⟩

/-- The "add" gate polynomial (source lines 178-185):
`s_add * (lhs + rhs + out * -F::one())` with `lhs = advice[0]@cur`,
`rhs = advice[1]@cur`, `out = advice[0]@next`. -/
def addGatePoly (F : Type) [Field F] : Expr F :=
  .mul (.qsel 1 0)
    (.add (.add (.qadv 0 0) (.qadv 1 0)) (.mul (.qadv 0 1) (.const (-1))))

/-- The "mul" gate polynomial (source lines 304-328):
`s_mul * (lhs * rhs + out * -F::one())` with `lhs = advice[0]@cur`,
`rhs = advice[1]@cur`, `out = advice[0]@next`. -/
def mulGatePoly (F : Type) [Field F] : Expr F :=
  .mul (.qsel 2 0)
    (.add (.mul (.qadv 0 0) (.qadv 1 0)) (.mul (.qadv 0 1) (.const (-1))))

/-- The "public input" gate polynomial (source lines 453-463):
`s * (p + a * -F::one())` with `a = advice[1]@cur`, `p = instance@cur`. -/
def pubGatePoly (F : Type) [Field F] : Expr F :=
  .mul (.qsel 0 0)
    (.add (.qinst 0 0) (.mul (.qadv 1 0) (.const (-1))))

/-- The gates of `MyCircuit`, in registration order: "public input" is
registered first in `FieldChip::configure`, then "add" (in
`AddChip::configure`), then "mul" (in `MulChip::configure`). -/
def myGates (F : Type) [Field F] : List (Gate F) :=
  [⟨"public input", [pubGatePoly F]⟩,
   ⟨"add", [addGatePoly F]⟩,
   ⟨"mul", [mulGatePoly F]⟩]

/-- Modelled from the spec (§3 Assignment, §4.3): the state of one synthesis
pass: the layouter's row-allocation cursor, the advice and selector grids
(default value 0 for never-written cells), the read-only instance grid, the
list of recorded copy-constraint edges, and a log of committed regions
(diagnostic name, start row, rows used). -/
structure SynthState (F : Type) where
  cursor : Nat
  adv : Nat → Nat → F
  sel : Nat → Nat → F
  inst : Nat → Nat → F
  copies : List (Cell × Cell)
  regions : List (String × Nat × Nat)

/-- Point update of a two-index grid. -/
def upd2 {F : Type} (f : Nat → Nat → F) (c r : Nat) (v : F) : Nat → Nat → F :=
  fun x y => if x == c && y == r then v else f x y

/-- Modelled from the spec (§4.3, §9): a region in flight — the synthesis
state, the region's start row (fixed at region entry by the layouter's
cursor), and the number of rows touched so far (max offset written + 1). -/
structure RegionState (F : Type) where
  st : SynthState F
  start : Nat
  used : Nat

/-- Modelled from the spec (§4.3 `region.enable_selector`, §4.1): enabling a
selector "writes 1 into the selector's fixed column at the given row"; the
row is the region's start plus the offset. -/
def regionEnable {F : Type} [Field F] (s : Selector) (offset : Nat)
    (r : RegionState F) : Except Error (RegionState F) :=
  .ok { r with
    st := { r.st with sel := upd2 r.st.sel s (r.start + offset) 1 },
    used := max r.used (offset + 1) }

/-- Modelled from the spec (§4.3 `region.assign_advice`): evaluates the
`value_fn` result (which may be an absent-value error) and on success writes
the value into the advice cell at the region offset, returning that cell.
The diagnostic name only feeds failure reporting and is otherwise unused. -/
def regionAssignAdvice {F : Type} (_nm : String) (col : Nat) (offset : Nat)
    (value : Except Error F) (r : RegionState F) :
    Except Error (RegionState F × Cell) :=
  match value with
  | .error e => .error e
  | .ok v =>
      .ok ({ r with
        st := { r.st with adv := upd2 r.st.adv col (r.start + offset) v },
        used := max r.used (offset + 1) },
        ⟨⟨.advice, col⟩, r.start + offset⟩)

/-- Modelled from the spec (§4.3 `region.constrain_equal`): "records a
copy-constraint edge between two absolute cells, later checked by
verification". -/
def regionConstrainEqual {F : Type} (_p : Permutation) (a b : Cell)
    (r : RegionState F) : Except Error (RegionState F) :=
  .ok { r with st := { r.st with copies := r.st.copies ++ [(a, b)] } }

/-- Modelled from the spec (§4.3, §9): `assign_region` of the sequential
single-chip layouter — regions are stacked "sequentially by increasing row
index" via "a simple monotonically increasing row-allocation cursor": the
region starts at the current cursor, the closure runs once, and the cursor
advances by the number of rows the region touched. -/
def assignRegion {F : Type} {α : Type} (nm : String)
    (f : RegionState F → Except Error (RegionState F × α)) (st : SynthState F) :
    Except Error (SynthState F × α) :=
  match f ⟨st, st.cursor, 0⟩ with
  | .error e => .error e
  | .ok (r, a) =>
      .ok ({ r.st with
        cursor := r.start + r.used,
        regions := r.st.regions ++ [(nm, r.start, r.used)] }, a)

/-- Modelled from the spec (§7, §9): Rust's `Option::ok_or`, the shape of
every `value_fn` closure in the source ("model as an explicit two-variant
value (present/absent)... absence is propagated as an explicit absent-value
signal"). -/
def okOr {F : Type} (v : Option F) (e : Error) : Except Error F :=
  match v with
  | some x => .ok x
  | none => .error e

/-- Modelled from the spec (§4.3 `namespace`): a namespace contributes a
diagnostic path prefix to a region's name ("e.g., `a + b / lhs`"). -/
def nsName (ns nm : String) : String := ns ++ "/" ++ nm

/-- Stands in for the value `Option::unwrap` would have to produce from
`None` (a panic in Rust); the unwrap-safety theorem shows the success path
never reaches it. -/
def unwrapPanic {F : Type} : Number F := ⟨⟨⟨.advice, 0⟩, 0⟩, none⟩

/-- The region closure of `AddChip::add` (source lines 226-264): enable
`s_add` at offset 0; assign `lhs`/`rhs` from the input values at offset 0 of
the two advice columns; copy-constrain them to the input cells; assign the
sum into `advice[0]` at offset 1; store the output variable. -/
def addRegion {F : Type} [Field F] (n1 n2 n3 : String) (config : AddConfig)
    (a b : Number F) (r : RegionState F) :
    Except Error (RegionState F × Option (Number F)) := do
  let r ← regionEnable config.s_add 0 r
  let (r, lhs) ← regionAssignAdvice n1 (config.advice 0) 0
      (okOr a.value .SynthesisError) r
  let (r, rhs) ← regionAssignAdvice n2 (config.advice 1) 0
      (okOr b.value .SynthesisError) r
  let r ← regionConstrainEqual config.perm a.cell lhs r
  let r ← regionConstrainEqual config.perm b.cell rhs r
  let value := a.value.bind fun x => b.value.map fun y => x + y
  let (r, cell) ← regionAssignAdvice n3 (config.advice 0) 1
      (okOr value .SynthesisError) r
  let out := some (⟨cell, value⟩ : Number F)
  pure (r, out)

/-- `AddChip::add` (source lines 215-268): run the region, then unwrap the
captured output variable. -/
def AddChip.add {F : Type} [Field F] (ns rn n1 n2 n3 : String)
    (config : AddConfig) (a b : Number F) (st : SynthState F) :
    Except Error (Number F × SynthState F) :=
  match assignRegion (nsName ns rn) (addRegion n1 n2 n3 config a b) st with
  | .error e => .error e
  | .ok (st, out) => .ok (out.getD unwrapPanic, st)

/-- The region closure of `MulChip::mul` (source lines 368-406): same shape
as the add region but assigns the product into `advice[0]` at offset 1. -/
def mulRegion {F : Type} [Field F] (n1 n2 n3 : String) (config : MulConfig)
    (a b : Number F) (r : RegionState F) :
    Except Error (RegionState F × Option (Number F)) := do
  let r ← regionEnable config.s_mul 0 r
  let (r, lhs) ← regionAssignAdvice n1 (config.advice 0) 0
      (okOr a.value .SynthesisError) r
  let (r, rhs) ← regionAssignAdvice n2 (config.advice 1) 0
      (okOr b.value .SynthesisError) r
  let r ← regionConstrainEqual config.perm a.cell lhs r
  let r ← regionConstrainEqual config.perm b.cell rhs r
  let value := a.value.bind fun x => b.value.map fun y => x * y
  let (r, cell) ← regionAssignAdvice n3 (config.advice 0) 1
      (okOr value .SynthesisError) r
  let out := some (⟨cell, value⟩ : Number F)
  pure (r, out)

/-- `MulChip::mul` (source lines 357-410). -/
def MulChip.mul {F : Type} [Field F] (ns rn n1 n2 n3 : String)
    (config : MulConfig) (a b : Number F) (st : SynthState F) :
    Except Error (Number F × SynthState F) :=
  match assignRegion (nsName ns rn) (mulRegion n1 n2 n3 config a b) st with
  | .error e => .error e
  | .ok (st, out) => .ok (out.getD unwrapPanic, st)

/-- The region closure of `FieldChip::load_private` (source lines 493-502):
assign the private value into `advice[0]` at offset 0 and store the output
variable. -/
def loadRegion {F : Type} (cn : String) (config : FieldConfig)
    (value : Option F) (r : RegionState F) :
    Except Error (RegionState F × Option (Number F)) := do
  let (r, cell) ← regionAssignAdvice cn (config.advice 0) 0
      (okOr value .SynthesisError) r
  let num := some (⟨cell, value⟩ : Number F)
  pure (r, num)

/-- `FieldChip::load_private` (source lines 483-505). -/
def FieldChip.load_private {F : Type} (ns rn cn : String)
    (config : FieldConfig) (value : Option F) (st : SynthState F) :
    Except Error (Number F × SynthState F) :=
  match assignRegion (nsName ns rn) (loadRegion cn config value) st with
  | .error e => .error e
  | .ok (st, num) => .ok (num.getD unwrapPanic, st)

/-- `AddInstructions::add` for `FieldChip` (source lines 197-210): delegates
to an `AddChip` constructed from `add_config`. -/
def FieldChip.add {F : Type} [Field F] (ns rn n1 n2 n3 : String)
    (config : FieldConfig) (a b : Number F) (st : SynthState F) :
    Except Error (Number F × SynthState F) :=
  AddChip.add ns rn n1 n2 n3 config.add_config a b st

/-- `MulInstructions::mul` for `FieldChip` (source lines 340-352): delegates
to a `MulChip` constructed from `mul_config`. -/
def FieldChip.mul {F : Type} [Field F] (ns rn n1 n2 n3 : String)
    (config : FieldConfig) (a b : Number F) (st : SynthState F) :
    Except Error (Number F × SynthState F) :=
  MulChip.mul ns rn n1 n2 n3 config.mul_config a b st

/-- `FieldChip::add_and_mul` (source lines 508-517): `d = (a + b) * c`,
namespacing the add and mul calls. -/
def FieldChip.add_and_mul {F : Type} [Field F]
    (nsa rna a1 a2 a3 nsm rnm m1 m2 m3 : String) (config : FieldConfig)
    (a b c : Number F) (st : SynthState F) :
    Except Error (Number F × SynthState F) := do
  let (ab, st) ← FieldChip.add nsa rna a1 a2 a3 config a b st
  FieldChip.mul nsm rnm m1 m2 m3 config ab c st

/-- The region closure of `FieldChip::expose_public` (source lines 528-544):
enable `s_pub` at offset 0, assign the number's value into `advice[1]` at
offset 0, and copy-constrain that cell to the number's cell.  No value is
ever written into the instance column. -/
def exposeRegion {F : Type} [Field F] (cn : String) (config : FieldConfig)
    (num : Number F) (r : RegionState F) :
    Except Error (RegionState F × Unit) := do
  let r ← regionEnable config.s_pub 0 r
  let (r, out) ← regionAssignAdvice cn (config.advice 1) 0
      (okOr num.value .SynthesisError) r
  let r ← regionConstrainEqual config.perm num.cell out r
  pure (r, ())

/-- `FieldChip::expose_public` (source lines 519-546). -/
def FieldChip.expose_public {F : Type} [Field F] (ns rn cn : String)
    (config : FieldConfig) (num : Number F) (st : SynthState F) :
    Except Error (SynthState F) :=
  match assignRegion (nsName ns rn) (exposeRegion cn config num) st with
  | .error e => .error e
  | .ok (st, _) => .ok st

/-- The diagnostic strings appearing in `MyCircuit::synthesize` and the chip
methods; parametrizing over them lets us state that they do not influence
constraint semantics. -/
structure Names where
  nsLoadA : String
  nsLoadB : String
  nsLoadC : String
  nsAdd : String
  nsMul : String
  nsExpose : String
  rLoad : String
  cLoad : String
  rAdd : String
  aLhs : String
  aRhs : String
  aOut : String
  rMul : String
  mLhs : String
  mRhs : String
  mOut : String
  rExpose : String
  cExpose : String

/-- The literal strings used in the source: namespaces "load a" / "load b" /
"load c" / "a + b" / "(a + b) * c" / "expose d", region names
"load private" / "add" / "mul" / "expose public", and the cell names. -/
def defaultNames : Names :=
  ⟨"load a", "load b", "load c", "a + b", "(a + b) * c", "expose d",
   "load private", "private input",
   "add", "lhs", "rhs", "lhs * rhs",
   "mul", "lhs", "rhs", "lhs * rhs",
   "expose public", "public advice"⟩

/-- `struct MyCircuit` (source lines 556-560): the three optional private
inputs. -/
structure MyCircuit (F : Type) where
  a : Option F
  b : Option F
  c : Option F

/-- `MyCircuit::synthesize` (source lines 576-590), parametrized by the
diagnostic strings: load `a`, `b`, `c`, compute `d = (a + b) * c`, expose
`d` as a public input. -/
def synthesizeNamed {F : Type} [Field F] (ns : Names) (circ : MyCircuit F)
    (st : SynthState F) : Except Error (SynthState F) := do
  let (a, st) ← FieldChip.load_private ns.nsLoadA ns.rLoad ns.cLoad
      myFieldConfig circ.a st
  let (b, st) ← FieldChip.load_private ns.nsLoadB ns.rLoad ns.cLoad
      myFieldConfig circ.b st
  let (c, st) ← FieldChip.load_private ns.nsLoadC ns.rLoad ns.cLoad
      myFieldConfig circ.c st
  let (d, st) ← FieldChip.add_and_mul ns.nsAdd ns.rAdd ns.aLhs ns.aRhs ns.aOut
      ns.nsMul ns.rMul ns.mLhs ns.mRhs ns.mOut myFieldConfig a b c st
  FieldChip.expose_public ns.nsExpose ns.rExpose ns.cExpose myFieldConfig d st

/-- `MyCircuit::synthesize` with the literal strings of the source. -/
def MyCircuit.synthesize {F : Type} [Field F] (circ : MyCircuit F)
    (st : SynthState F) : Except Error (SynthState F) :=
  synthesizeNamed defaultNames circ st

/-- Modelled from the spec (§4.5, §6): the state the mock prover holds after
synthesis — grid size `n = 2^k`, the registered gates, the advice, selector
and instance grids, and the recorded copy-constraint edges. -/
structure MockProver (F : Type) where
  n : Nat
  gates : List (Gate F)
  adv : Nat → Nat → F
  sel : Nat → Nat → F
  inst : Nat → Nat → F
  copies : List (Cell × Cell)

/-- Modelled from the spec (§3 public-input vector): the instance grid built
from the public-input vectors supplied to `MockProver::run` ("one value per
row of each instance column"); missing entries read as 0. -/
def instGrid {F : Type} [Field F] (pis : List (List F)) : Nat → Nat → F :=
  fun c r => (pis.getD c []).getD r 0

/-- Modelled from the spec (§3 Assignment): the empty assignment at the
beginning of a synthesis pass: cursor 0, all-zero advice and selector grids,
the instance grid from the public inputs, no copies, no regions. -/
def initState {F : Type} [Field F] (pis : List (List F)) : SynthState F :=
  ⟨0, fun _ _ => 0, fun _ _ => 0, instGrid pis, [], []⟩

/-- Modelled from the spec (§6 `run(grid_size_k, circuit, public_inputs)`):
`MockProver::run`, parametrized by the diagnostic strings: synthesize the
circuit from the empty assignment and package the resulting grids. -/
def runNamed {F : Type} [Field F] (ns : Names) (k : Nat) (circ : MyCircuit F)
    (pis : List (List F)) : Except Error (MockProver F) :=
  match synthesizeNamed ns circ (initState pis) with
  | .error e => .error e
  | .ok st => .ok ⟨2 ^ k, myGates F, st.adv, st.sel, st.inst, st.copies⟩

/-- `MockProver::run` with the literal strings of the source. -/
def MockProver.run {F : Type} [Field F] (k : Nat) (circ : MyCircuit F)
    (pis : List (List F)) : Except Error (MockProver F) :=
  runNamed defaultNames k circ pis

/-- The verification failures of `halo2::dev::VerifyFailure` needed by the
example: a gate constraint failure (gate index, gate name, constraint index,
constraint name, row) and a permutation failure; modelled from the spec for
the permutation case ("tagged with the two cell locations"). -/
inductive VerifyFailure where
  | Constraint (gate_index : Nat) (gate_name : String) (constraint_index : Nat)
      (constraint_name : String) (row : Nat)
  | Permutation (a b : Cell)
  deriving DecidableEq

/-- Modelled from the spec (§4.4): the value of a cell as seen by the
permutation check. -/
def MockProver.cellValue {F : Type} (P : MockProver F) (c : Cell) : F :=
  match c.col.kind with
  | .advice => P.adv c.col.index c.row
  | .inst => P.inst c.col.index c.row

/-- Modelled from the spec (§4.5): the constraint failures of one gate
polynomial over rows `0..n` in increasing row order — "evaluate every
polynomial expression of the gate at that row... any nonzero result is
recorded as a constraint failure tagged with gate name, expression index,
and row". -/
def rowFailures {F : Type} [Field F] [DecidableEq F] (P : MockProver F)
    (gi : Nat) (gn : String) (ci : Nat) (p : Expr F) : Nat → List VerifyFailure
  | 0 => []
  | r + 1 =>
      rowFailures P gi gn ci p r ++
        (if Expr.eval P.adv P.sel P.inst r p = 0 then []
         else [.Constraint gi gn ci "" r])

/-- Modelled from the spec (§4.5): failures of all polynomials of one gate,
with running constraint index. -/
def polyFailures {F : Type} [Field F] [DecidableEq F] (P : MockProver F)
    (gi : Nat) (gn : String) : Nat → List (Expr F) → List VerifyFailure
  | _, [] => []
  | ci, p :: ps => rowFailures P gi gn ci p P.n ++ polyFailures P gi gn (ci + 1) ps

/-- Modelled from the spec (§4.5): failures of all registered gates, with
running gate index. -/
def gateFailures {F : Type} [Field F] [DecidableEq F] (P : MockProver F) :
    Nat → List (Gate F) → List VerifyFailure
  | _, [] => []
  | gi, g :: gs => polyFailures P gi g.name 0 g.polys ++ gateFailures P (gi + 1) gs

/-- Modelled from the spec (§4.4): "for every recorded equality edge between
cell A and cell B, check that `assignment[A] == assignment[B]`"; a mismatch
is a permutation failure tagged with the two cells. -/
def permFailures {F : Type} [Field F] [DecidableEq F] (P : MockProver F) :
    List (Cell × Cell) → List VerifyFailure
  | [] => []
  | e :: es =>
      (if P.cellValue e.1 = P.cellValue e.2 then []
       else [.Permutation e.1 e.2]) ++ permFailures P es

/-- Modelled from the spec (§4.5): `MockProver::verify` — collect every gate
constraint failure and every permutation failure; "verification succeeds iff
the failure list is empty". -/
def MockProver.verify {F : Type} [Field F] [DecidableEq F] (P : MockProver F) :
    Except (List VerifyFailure) Unit :=
  match gateFailures P 0 P.gates ++ permFailures P P.copies with
  | [] => .ok ()
  | fs => .error fs

/-- `MockProver::run` followed by `verify`, as in `main`. -/
def mockRunVerify {F : Type} [Field F] [DecidableEq F] (k : Nat)
    (circ : MyCircuit F) (pis : List (List F)) :
    Except Error (Except (List VerifyFailure) Unit) :=
  (MockProver.run k circ pis).map MockProver.verify

/-- Decides whether an `Except` result is a success (Rust `Result::is_ok`). -/
def isOkE {ε α : Type} : Except ε α → Bool
  | .ok _ => true
  | .error _ => false

/-- The advice grid after synthesizing `MyCircuit` with inputs
`some a, some b, some c` from the empty assignment: the writes of the six
regions in order (loads at rows 0, 1, 2; add region at rows 3-4; mul region
at rows 5-6; expose region at row 7). -/
def finalAdv {F : Type} [Field F] (a b c : F) : Nat → Nat → F :=
  upd2 (upd2 (upd2 (upd2 (upd2 (upd2 (upd2 (upd2 (upd2 (upd2
    (fun _ _ => 0)
    0 0 a) 0 1 b) 0 2 c)
    0 3 a) 1 3 b) 0 4 (a + b))
    0 5 (a + b)) 1 5 c) 0 6 ((a + b) * c))
    1 7 ((a + b) * c)

/-- The selector grid after synthesizing `MyCircuit`: `s_add` (1) at row 3,
`s_mul` (2) at row 5, `s_pub` (0) at row 7. -/
def finalSel {F : Type} [Field F] : Nat → Nat → F :=
  upd2 (upd2 (upd2 (fun _ _ => 0) 1 3 1) 2 5 1) 0 7 1

/-- The copy-constraint edges recorded while synthesizing `MyCircuit`, in
order: the two input copies of the add region, the two input copies of the
mul region, and the output copy of the expose region. -/
def finalCopies : List (Cell × Cell) :=
  [(⟨⟨.advice, 0⟩, 0⟩, ⟨⟨.advice, 0⟩, 3⟩),
   (⟨⟨.advice, 0⟩, 1⟩, ⟨⟨.advice, 1⟩, 3⟩),
   (⟨⟨.advice, 0⟩, 4⟩, ⟨⟨.advice, 0⟩, 5⟩),
   (⟨⟨.advice, 0⟩, 2⟩, ⟨⟨.advice, 1⟩, 5⟩),
   (⟨⟨.advice, 0⟩, 6⟩, ⟨⟨.advice, 1⟩, 7⟩)]

/-- The mock prover state after `MockProver::run(3, MyCircuit{Some a, Some b,
Some c}, pis)`. -/
def proverOf {F : Type} [Field F] (a b c : F) (pis : List (List F)) :
    MockProver F :=
  ⟨8, myGates F, finalAdv a b c, finalSel, instGrid pis, finalCopies⟩

instance fact_prime_11 : Fact (Nat.Prime 11) := ⟨by norm_num⟩

theorem rowFailures_eq_nil {F : Type} [Field F] [DecidableEq F]
    (P : MockProver F) (gi : Nat) (gn : String) (ci : Nat) (p : Expr F)
    (n : Nat) (h : ∀ r, r < n → Expr.eval P.adv P.sel P.inst r p = 0) :
    rowFailures P gi gn ci p n = [] := by
  induction n with
  | zero => rfl
  | succ m ih =>
      simp only [rowFailures, if_pos (h m (Nat.lt_succ_self m)),
        ih fun r hr => h r (Nat.lt_succ_of_lt hr), List.append_nil]

theorem addRows_zero {F : Type} [Field F] (a b c : F) (pis : List (List F)) :
    ∀ r, r < 8 →
      Expr.eval (finalAdv a b c) finalSel (instGrid pis) r (addGatePoly F) = 0 := by
  intro r hr
  interval_cases r <;>
    simp [Expr.eval, addGatePoly, finalAdv, finalSel, upd2, -neg_add_rev]

theorem mulRows_zero {F : Type} [Field F] (a b c : F) (pis : List (List F)) :
    ∀ r, r < 8 →
      Expr.eval (finalAdv a b c) finalSel (instGrid pis) r (mulGatePoly F) = 0 := by
  intro r hr
  interval_cases r <;>
    simp [Expr.eval, mulGatePoly, finalAdv, finalSel, upd2, -neg_add_rev]

theorem pubRows_lt7_zero {F : Type} [Field F] (a b c : F) (pis : List (List F)) :
    ∀ r, r < 7 →
      Expr.eval (finalAdv a b c) finalSel (instGrid pis) r (pubGatePoly F) = 0 := by
  intro r hr
  interval_cases r <;>
    simp [Expr.eval, pubGatePoly, finalAdv, finalSel, upd2, -neg_add_rev]

theorem proverOf_n {F : Type} [Field F] (a b c : F) (pis : List (List F)) :
    (proverOf a b c pis).n = 8 := rfl

theorem run_eq_proverOf {F : Type} [Field F] (a b c : F) (pis : List (List F)) :
    MockProver.run 3 ⟨some a, some b, some c⟩ pis = .ok (proverOf a b c pis) := rfl

theorem perm_nil {F : Type} [Field F] [DecidableEq F] (a b c : F)
    (pis : List (List F)) :
    permFailures (proverOf a b c pis) finalCopies = [] := by
  simp [permFailures, finalCopies, MockProver.cellValue, proverOf, finalAdv, upd2]

/-- C1: for every triple of field elements `(a, b, c)`, running the mock
prover with `k = 3` on `MyCircuit { a: Some a, b: Some b, c: Some c }` and a
public-input vector of 8 entries whose index-7 entry equals `(a + b) * c`
(all other entries arbitrary) succeeds: `MockProver::run` returns `Ok` and
the subsequent `verify()` returns `Ok(())` with an empty failure list. -/
theorem C1_satisfied_circuit_accepts {F : Type} [Field F] [DecidableEq F]
    (a b c : F) (pi : List F) (_hlen : pi.length = 8)
    (h7 : pi.getD 7 0 = (a + b) * c) :
    mockRunVerify 3 ⟨some a, some b, some c⟩ [pi] = .ok (.ok ()) := by
  have h7' : pi[7]?.getD 0 = (a + b) * c := by simpa using h7
  have hpub : rowFailures (proverOf a b c [pi]) 0 "public input" 0
      (pubGatePoly F) 8 = [] := by
    refine rowFailures_eq_nil _ _ _ _ _ _ ?_
    intro r hr
    interval_cases r <;>
      simp [Expr.eval, pubGatePoly, proverOf, finalAdv, finalSel, instGrid, upd2,
        h7', -neg_add_rev]
  have hadd : rowFailures (proverOf a b c [pi]) 1 "add" 0 (addGatePoly F) 8 = [] :=
    rowFailures_eq_nil _ _ _ _ _ _ (addRows_zero a b c [pi])
  have hmul : rowFailures (proverOf a b c [pi]) 2 "mul" 0 (mulGatePoly F) 8 = [] :=
    rowFailures_eq_nil _ _ _ _ _ _ (mulRows_zero a b c [pi])
  have hg : gateFailures (proverOf a b c [pi]) 0 (myGates F) = [] := by
    simp only [myGates, gateFailures, polyFailures, proverOf_n]
    rw [hpub, hadd, hmul]
    rfl
  have hv : MockProver.verify (proverOf a b c [pi]) = .ok () := by
    unfold MockProver.verify
    rw [show (proverOf a b c [pi]).gates = myGates F from rfl,
      show (proverOf a b c [pi]).copies = finalCopies from rfl,
      hg, perm_nil]
    rfl
  show (MockProver.run 3 ⟨some a, some b, some c⟩ [pi]).map MockProver.verify =
    .ok (.ok ())
  rw [run_eq_proverOf]
  simp [Except.map, hv]

/-- Witness for C1 at `F = ZMod 11`, `a = 2`, `b = 3`, `c = 4`,
`d = (2 + 3) * 4 = 20 = 9 (mod 11)` stored at index 7 of the public-input
vector. -/
theorem C1_witness :
    ([0, 0, 0, 0, 0, 0, 0, (9 : ZMod 11)].length = 8) ∧
    ([0, 0, 0, 0, 0, 0, 0, (9 : ZMod 11)].getD 7 0 = ((2 : ZMod 11) + 3) * 4) ∧
    mockRunVerify 3 ⟨some 2, some 3, some 4⟩
      [[0, 0, 0, 0, 0, 0, 0, (9 : ZMod 11)]] = .ok (.ok ()) :=
  ⟨by decide, by decide,
    C1_satisfied_circuit_accepts 2 3 4 _ (by decide) (by decide)⟩

/-- C2: for every triple `(a, b, c)` and every public input `d' ≠ (a + b) * c`
at index 7 of the instance column, `verify()` after
`MockProver::run(3, ...)` returns exactly one failure: the constraint
failure naming the "public input" gate (gate index 0, constraint index 0)
at row 7 — no other gate or permutation failure. -/
theorem C2_wrong_public_input_single_failure {F : Type} [Field F]
    [DecidableEq F] (a b c : F) (pi : List F) (_hlen : pi.length = 8)
    (h7 : pi.getD 7 0 ≠ (a + b) * c) :
    mockRunVerify 3 ⟨some a, some b, some c⟩ [pi] =
      .ok (.error [.Constraint 0 "public input" 0 "" 7]) := by
  have h7' : ¬ pi[7]?.getD 0 = (a + b) * c := by simpa using h7
  have hpub7 : Expr.eval (proverOf a b c [pi]).adv (proverOf a b c [pi]).sel
      (proverOf a b c [pi]).inst 7 (pubGatePoly F) ≠ 0 := by
    simp [Expr.eval, pubGatePoly, proverOf, finalAdv, finalSel, instGrid, upd2,
      -neg_add_rev, add_neg_eq_zero, h7']
  have hpub : rowFailures (proverOf a b c [pi]) 0 "public input" 0
      (pubGatePoly F) 8 = [.Constraint 0 "public input" 0 "" 7] := by
    have hstep : rowFailures (proverOf a b c [pi]) 0 "public input" 0
        (pubGatePoly F) 8 =
        rowFailures (proverOf a b c [pi]) 0 "public input" 0 (pubGatePoly F) 7 ++
          (if Expr.eval (proverOf a b c [pi]).adv (proverOf a b c [pi]).sel
              (proverOf a b c [pi]).inst 7 (pubGatePoly F) = 0 then []
           else [.Constraint 0 "public input" 0 "" 7]) := rfl
    rw [hstep, if_neg hpub7,
      rowFailures_eq_nil _ _ _ _ _ _ (pubRows_lt7_zero a b c [pi]),
      List.nil_append]
  have hadd : rowFailures (proverOf a b c [pi]) 1 "add" 0 (addGatePoly F) 8 = [] :=
    rowFailures_eq_nil _ _ _ _ _ _ (addRows_zero a b c [pi])
  have hmul : rowFailures (proverOf a b c [pi]) 2 "mul" 0 (mulGatePoly F) 8 = [] :=
    rowFailures_eq_nil _ _ _ _ _ _ (mulRows_zero a b c [pi])
  have hg : gateFailures (proverOf a b c [pi]) 0 (myGates F) =
      [.Constraint 0 "public input" 0 "" 7] := by
    simp only [myGates, gateFailures, polyFailures, proverOf_n]
    rw [hpub, hadd, hmul]
    rfl
  have hv : MockProver.verify (proverOf a b c [pi]) =
      .error [.Constraint 0 "public input" 0 "" 7] := by
    unfold MockProver.verify
    rw [show (proverOf a b c [pi]).gates = myGates F from rfl,
      show (proverOf a b c [pi]).copies = finalCopies from rfl,
      hg, perm_nil]
    rfl
  show (MockProver.run 3 ⟨some a, some b, some c⟩ [pi]).map MockProver.verify =
    .ok (.error [.Constraint 0 "public input" 0 "" 7])
  rw [run_eq_proverOf]
  simp [Except.map, hv]

/-- Witness for C2 at `F = ZMod 11`, `a = 2`, `b = 3`, `c = 4`,
`d' = 10 ≠ 9 = (2 + 3) * 4 (mod 11)` at index 7. -/
theorem C2_witness :
    ([0, 0, 0, 0, 0, 0, 0, (10 : ZMod 11)].length = 8) ∧
    ([0, 0, 0, 0, 0, 0, 0, (10 : ZMod 11)].getD 7 0 ≠ ((2 : ZMod 11) + 3) * 4) ∧
    mockRunVerify 3 ⟨some 2, some 3, some 4⟩
      [[0, 0, 0, 0, 0, 0, 0, (10 : ZMod 11)]] =
      .ok (.error [.Constraint 0 "public input" 0 "" 7]) :=
  ⟨by decide, by decide,
    C2_wrong_public_input_single_failure 2 3 4 _ (by decide) (by decide)⟩

/-- C3: the "add" gate expression `s_add * (lhs + rhs + out * (-1))` and the
"mul" gate expression `s_mul * (lhs * rhs + out * (-1))` — with
`lhs = advice[0]@cur`, `rhs = advice[1]@cur`, `out = advice[0]@next` —
evaluate to zero at row `r` iff the selector is zero at `r` or
`advice[0][r+1]` equals `advice[0][r] + advice[1][r]` (resp.
`advice[0][r] * advice[1][r]`); in particular the rotation-next query reads
row `r + 1` of column `advice[0]`. -/
theorem C3_gate_zero_iff {F : Type} [Field F]
    (adv sel inst : Nat → Nat → F) (r : Nat) :
    (Expr.eval adv sel inst r (addGatePoly F) = 0 ↔
      sel 1 r = 0 ∨ adv 0 (r + 1) = adv 0 r + adv 1 r) ∧
    (Expr.eval adv sel inst r (mulGatePoly F) = 0 ↔
      sel 2 r = 0 ∨ adv 0 (r + 1) = adv 0 r * adv 1 r) := by
  have key : ∀ x z : F, x + z * -1 = 0 ↔ z = x := by
    intro x z
    rw [mul_neg_one, ← sub_eq_add_neg, sub_eq_zero, eq_comm]
  constructor
  · simp only [Expr.eval, addGatePoly, mul_eq_zero, Nat.add_zero]
    rw [key (adv 0 r + adv 1 r) (adv 0 (r + 1))]
  · simp only [Expr.eval, mulGatePoly, mul_eq_zero, Nat.add_zero]
    rw [key (adv 0 r * adv 1 r) (adv 0 (r + 1))]

/-- C4: under the sequential-stacking layouter, the six regions issued by
`MyCircuit::synthesize` in order (load a, load b, load c, add, mul, expose
public) start at rows 0, 1, 2, 3, 5, 7 and use 1, 1, 1, 2, 2, 1 rows
respectively (so add occupies rows 3-4 and mul rows 5-6), and the
public-input selector `s_pub` is enabled at absolute row 7. -/
theorem C4_region_rows {F : Type} [Field F] (a b c : F)
    (pis : List (List F)) :
    (MyCircuit.synthesize ⟨some a, some b, some c⟩ (initState pis)).map
        (fun st => (st.regions, st.sel 0 7)) =
      .ok ([("load a/load private", 0, 1), ("load b/load private", 1, 1),
            ("load c/load private", 2, 1), ("a + b/add", 3, 2),
            ("(a + b) * c/mul", 5, 2), ("expose d/expose public", 7, 1)], 1) :=
  rfl

/-- C5: synthesis never writes a value into the instance column:
`expose_public` only assigns `advice[1]` at region offset 0, copy-constrains
it to the result's cell and enables `s_pub` (first conjunct, a complete
characterization of its effect showing the `inst` grid untouched), and a
full run of `MyCircuit::synthesize` leaves the instance grid exactly as
supplied (second conjunct). -/
theorem C5_instance_untouched {F : Type} [Field F] (ns rn cn : String) :
    (∀ (num : Number F) (st : SynthState F),
      FieldChip.expose_public ns rn cn myFieldConfig num st =
        match num.value with
        | none => .error .SynthesisError
        | some v => .ok { st with
            adv := upd2 st.adv 1 st.cursor v,
            sel := upd2 st.sel 0 st.cursor 1,
            copies := st.copies ++ [(num.cell, ⟨⟨.advice, 1⟩, st.cursor⟩)],
            cursor := st.cursor + 1,
            regions := st.regions ++ [(nsName ns rn, st.cursor, 1)] }) ∧
    (∀ (circ : MyCircuit F) (st : SynthState F),
      (MyCircuit.synthesize circ st).map SynthState.inst =
        (MyCircuit.synthesize circ st).map fun _ => st.inst) := by
  constructor
  · intro num st
    obtain ⟨cell, v⟩ := num
    cases v <;> rfl
  · intro circ st
    obtain ⟨a, b, c⟩ := circ
    cases a <;> cases b <;> cases c <;> rfl

/-- C6: an absent input value is always signalled as the explicit error
value `Error::SynthesisError` at the assignment call, never as a crash: the
`ok_or` shape of every `value_fn` (first conjunct), `load_private` on `None`
(second), and success exactly when all inputs are present for
`load_private`, `add`, `mul` and `expose_public`, any failure being
precisely `SynthesisError` (remaining conjuncts). -/
theorem C6_absent_value_error {F : Type} [Field F]
    (ns rn cn n1 n2 n3 : String) :
    (∀ v : Option F, okOr v Error.SynthesisError =
        match v with
        | none => .error Error.SynthesisError
        | some x => .ok x) ∧
    (∀ st : SynthState F,
      FieldChip.load_private ns rn cn myFieldConfig none st =
        .error .SynthesisError) ∧
    (∀ (x : F) (st : SynthState F),
      isOkE (FieldChip.load_private ns rn cn myFieldConfig (some x) st) = true) ∧
    (∀ (a b : Number F) (st : SynthState F),
      isOkE (AddChip.add ns rn n1 n2 n3 myAddConfig a b st) =
        (a.value.isSome && b.value.isSome) ∧
      (AddChip.add ns rn n1 n2 n3 myAddConfig a b st = .error .SynthesisError ∨
        isOkE (AddChip.add ns rn n1 n2 n3 myAddConfig a b st) = true)) ∧
    (∀ (a b : Number F) (st : SynthState F),
      isOkE (MulChip.mul ns rn n1 n2 n3 myMulConfig a b st) =
        (a.value.isSome && b.value.isSome) ∧
      (MulChip.mul ns rn n1 n2 n3 myMulConfig a b st = .error .SynthesisError ∨
        isOkE (MulChip.mul ns rn n1 n2 n3 myMulConfig a b st) = true)) ∧
    (∀ (num : Number F) (st : SynthState F),
      isOkE (FieldChip.expose_public ns rn cn myFieldConfig num st) =
        num.value.isSome ∧
      (FieldChip.expose_public ns rn cn myFieldConfig num st =
          .error .SynthesisError ∨
        isOkE (FieldChip.expose_public ns rn cn myFieldConfig num st) = true)) := by
  refine ⟨?_, ?_, ?_, ?_, ?_, ?_⟩
  · intro v
    cases v <;> rfl
  · intro st
    rfl
  · intro x st
    rfl
  · intro a b st
    obtain ⟨ac, av⟩ := a
    obtain ⟨bc, bv⟩ := b
    cases av <;> cases bv <;>
      first
      | exact ⟨rfl, Or.inl rfl⟩
      | exact ⟨rfl, Or.inr rfl⟩
  · intro a b st
    obtain ⟨ac, av⟩ := a
    obtain ⟨bc, bv⟩ := b
    cases av <;> cases bv <;>
      first
      | exact ⟨rfl, Or.inl rfl⟩
      | exact ⟨rfl, Or.inr rfl⟩
  · intro num st
    obtain ⟨ncell, nv⟩ := num
    cases nv <;>
      first
      | exact ⟨rfl, Or.inl rfl⟩
      | exact ⟨rfl, Or.inr rfl⟩

/-- C7: verification is idempotent and deterministic — it is a pure function
of the mock-prover state, so calling `verify()` twice on the same
(configuration, assignment, public inputs), or re-running the whole
run-then-verify pipeline on the same inputs, yields identical results
(the same `Ok(())` or the same ordered failure list). -/
theorem C7_verify_deterministic {F : Type} [Field F] [DecidableEq F] :
    (∀ P : MockProver F, P.verify = P.verify) ∧
    (∀ (k : Nat) (circ : MyCircuit F) (pis : List (List F)),
      mockRunVerify k circ pis = mockRunVerify k circ pis) :=
  ⟨fun _ => rfl, fun _ _ _ => rfl⟩

/-- C8: the namespace / region / cell name strings have no effect on
constraint semantics: any two runs of `MyCircuit::synthesize` differing only
in those strings produce the same mock-prover state (assignment, selector
grid, copy constraints) and the same `verify()` outcome. -/
theorem C8_names_irrelevant {F : Type} [Field F] [DecidableEq F]
    (ns1 ns2 : Names) (k : Nat) (circ : MyCircuit F) (pis : List (List F)) :
    runNamed ns1 k circ pis = runNamed ns2 k circ pis ∧
    (runNamed ns1 k circ pis).map MockProver.verify =
      (runNamed ns2 k circ pis).map MockProver.verify := by
  have h : runNamed ns1 k circ pis = runNamed ns2 k circ pis := by
    obtain ⟨a, b, c⟩ := circ
    cases a <;> cases b <;> cases c <;> rfl
  exact ⟨h, by rw [h]⟩

/-- C9: the trailing `unwrap()` in `AddChip::add`, `MulChip::mul` and
`FieldChip::load_private` never panics: whenever the region run returns
`Ok`, the captured output variable holds `Some(...)`. -/
theorem C9_unwrap_never_panics {F : Type} [Field F]
    (rn n1 n2 n3 cn : String) :
    (∀ (a b : Number F) (st : SynthState F),
      match assignRegion rn (addRegion n1 n2 n3 myAddConfig a b) st with
      | .ok p => p.2.isSome = true
      | .error _ => True) ∧
    (∀ (a b : Number F) (st : SynthState F),
      match assignRegion rn (mulRegion n1 n2 n3 myMulConfig a b) st with
      | .ok p => p.2.isSome = true
      | .error _ => True) ∧
    (∀ (v : Option F) (st : SynthState F),
      match assignRegion rn (loadRegion cn myFieldConfig v) st with
      | .ok p => p.2.isSome = true
      | .error _ => True) := by
  refine ⟨?_, ?_, ?_⟩
  · intro a b st
    obtain ⟨ac, av⟩ := a
    obtain ⟨bc, bv⟩ := b
    cases av <;> cases bv <;> trivial
  · intro a b st
    obtain ⟨ac, av⟩ := a
    obtain ⟨bc, bv⟩ := b
    cases av <;> cases bv <;> trivial
  · intro v st
    cases v <;> trivial

/-- C10: on success, the `Number` returned by `AddChip::add`
(resp. `MulChip::mul`) has value `Some(x + y)` (resp. `Some(x * y)`) exactly
when both inputs are `Some x` / `Some y` (an absent input makes the call
fail instead), and its cell is the cell assigned in column `advice[0]` at
region offset 1 (absolute row `cursor + 1`) — the cell the gate's
rotation-next query constrains, the selector being enabled at row
`cursor`. -/
theorem C10_output_number {F : Type} [Field F] (ns rn n1 n2 n3 : String) :
    (∀ (a b : Number F) (st : SynthState F),
      AddChip.add ns rn n1 n2 n3 myAddConfig a b st =
        match a.value, b.value with
        | some x, some y =>
            .ok (⟨⟨⟨.advice, 0⟩, st.cursor + 1⟩, some (x + y)⟩,
              { st with
                adv := upd2 (upd2 (upd2 st.adv 0 st.cursor x) 1 st.cursor y)
                  0 (st.cursor + 1) (x + y),
                sel := upd2 st.sel 1 st.cursor 1,
                copies := (st.copies ++ [(a.cell, ⟨⟨.advice, 0⟩, st.cursor⟩)])
                  ++ [(b.cell, ⟨⟨.advice, 1⟩, st.cursor⟩)],
                cursor := st.cursor + 2,
                regions := st.regions ++ [(nsName ns rn, st.cursor, 2)] })
        | _, _ => .error .SynthesisError) ∧
    (∀ (a b : Number F) (st : SynthState F),
      MulChip.mul ns rn n1 n2 n3 myMulConfig a b st =
        match a.value, b.value with
        | some x, some y =>
            .ok (⟨⟨⟨.advice, 0⟩, st.cursor + 1⟩, some (x * y)⟩,
              { st with
                adv := upd2 (upd2 (upd2 st.adv 0 st.cursor x) 1 st.cursor y)
                  0 (st.cursor + 1) (x * y),
                sel := upd2 st.sel 2 st.cursor 1,
                copies := (st.copies ++ [(a.cell, ⟨⟨.advice, 0⟩, st.cursor⟩)])
                  ++ [(b.cell, ⟨⟨.advice, 1⟩, st.cursor⟩)],
                cursor := st.cursor + 2,
                regions := st.regions ++ [(nsName ns rn, st.cursor, 2)] })
        | _, _ => .error .SynthesisError) := by
  constructor
  · intro a b st
    obtain ⟨ac, av⟩ := a
    obtain ⟨bc, bv⟩ := b
    cases av <;> cases bv <;> rfl
  · intro a b st
    obtain ⟨ac, av⟩ := a
    obtain ⟨bc, bv⟩ := b
    cases av <;> cases bv <;> rfl

end TwoChip
